import Mathlib

/-!
# Verification of the ADPF Unreal plugin's adaptive thermal/performance subsystem

Shallow embedding of the plugin's control logic:

* `ThermalStatus`, `ToThermalStatus` — from `Providers/Providers.h` and
  `Providers/SamsungProvider.cpp`.
* `FloatV` — IEEE-style float values (NaN, infinities, finite values modelled
  as exact rationals); float literals are embedded as their decimal values.
* `ADPFManager.saveQualityLevel` (both overloads), `fpsToNanosec`, and the
  `Monitor()` control loop — from `ADPFManager.cpp`.  JNI handles and logging
  are outside the model; per-tick readings of console variables, the clock,
  the headroom query, engine FPS, and the outcome of the hint-manager
  initialization are supplied as explicit tick inputs, and the observable
  side effects (`SetQualityLevels` applications, hint-session target-duration
  pushes, init attempts, teardowns) are returned as an explicit effect record.
* `CreateThermalProvider` — from the providers source in `ADPFManager.h`;
  the code's early-return-with-fallthrough is encoded as guarded if-chains.
-/

namespace AdpfUnrealPlugin

/-- The `ThermalStatus` enum from `Providers.h` (`ERROR = -1`, `NONE = 0`, …,
`SHUTDOWN = 6`). -/
inductive ThermalStatus where
  | ERROR
  | NONE
  | LIGHT
  | MODERATE
  | SEVERE
  | CRITICAL
  | EMERGENCY
  | SHUTDOWN
deriving DecidableEq, Repr

/-- The integer value each `ThermalStatus` enumerator carries in `Providers.h`. -/
def ThermalStatus.toInt : ThermalStatus → ℤ
  | .ERROR => -1
  | .NONE => 0
  | .LIGHT => 1
  | .MODERATE => 2
  | .SEVERE => 3
  | .CRITICAL => 4
  | .EMERGENCY => 5
  | .SHUTDOWN => 6

/-- An IEEE float value: NaN, an infinity, or a finite value modelled as an
exact rational. -/
inductive FloatV where
  | nan
  | negInf
  | posInf
  | finite (q : ℚ)
deriving DecidableEq, Repr

/-- IEEE `<` on embedded float values: every comparison involving NaN is
false; infinities compare as usual. -/
def FloatV.lt : FloatV → FloatV → Bool
  | .nan, _ => false
  | _, .nan => false
  | .negInf, .negInf => false
  | .negInf, _ => true
  | .posInf, _ => false
  | .finite _, .negInf => false
  | .finite _, .posInf => true
  | .finite a, .finite b => decide (a < b)

/-- `ADPFManager::max_quality_count` (`ADPFManager.h`). -/
def max_quality_count : ℤ := 4

/-- `ADPFManager::saveQualityLevel(const float head_room)`
(`ADPFManager.cpp` lines 513–530): the headroom-to-quality breakpoint chain,
returning the new `target_quality_level`.  The float literals `0.75f`,
`0.85f`, `0.95f` are embedded as their decimal values. -/
def saveQualityLevelFloat (head_room : FloatV) : ℤ :=
  if FloatV.lt head_room (.finite 0.75) then 3
  else if FloatV.lt head_room (.finite 0.85) then 2
  else if FloatV.lt head_room (.finite 0.95) then 1
  else 0

/-- `ADPFManager::saveQualityLevel(const int32_t warning_level)`
(`ADPFManager.cpp` lines 507–511): takes the current `target_quality_level`
and the warning level, returns the new `target_quality_level`. -/
def saveQualityLevelInt (target_quality_level warning_level : ℤ) : ℤ :=
  if 0 ≤ warning_level ∧ warning_level < max_quality_count then warning_level
  else target_quality_level

/-- Modelled from the spec (§4.3 step 4, status policy, C5's claimed formula):
`target = (K-1) - ordinal(status)`, clamped into `[0, K-1]`, with `K = 4`.
The code under `src/` does not contain this formula; it is stated here only
to be compared with `saveQualityLevelInt`. -/
def specStatusPolicy (status : ThermalStatus) : ℤ :=
  max 0 (min (max_quality_count - 1) ((max_quality_count - 1) - status.toInt))

/-- `ToThermalStatus` from `SamsungProvider.cpp` lines 7–26.  The fall-through
after the `switch` hits `checkNoEntry()` and then returns `ERROR`. -/
def ToThermalStatus (warning_level : ℤ) : ThermalStatus :=
  if warning_level = 0 then .NONE
  else if warning_level = 1 then .MODERATE
  else if warning_level = 2 then .SEVERE
  else if warning_level = -999 then .ERROR
  else .ERROR

namespace FJavaSamsungGameSDK

/-- `FJavaSamsungGameSDK::GetHighPrecisionTemp` (`AndroidJNIProvider.cpp`
source lines 172–192): the raw Java reading (nominally in `[0,10]`) is divided
by 10, and any result with `ret >= 1 || ret < 0` is replaced by 0. -/
def GetHighPrecisionTemp (raw : ℚ) : ℚ :=
  if 1 ≤ raw / 10 ∨ raw / 10 < 0 then 0 else raw / 10

end FJavaSamsungGameSDK

namespace SamsungProvider

/-- `SamsungProvider::GetThermalHeadroom` (`SamsungProvider.cpp` lines 62–65):
returns the SDK's high-precision temperature reading, ignoring the forecast
horizon. -/
def GetThermalHeadroom (raw : ℚ) (forecast_seconds : ℤ) : ℚ :=
  FJavaSamsungGameSDK.GetHighPrecisionTemp raw

end SamsungProvider

/-- Modelled from the spec's words for C9: normalize raw by 10 and clamp to 0
only the results that are negative or out of the range `[0,1]`.  Stated only
to be compared with `FJavaSamsungGameSDK.GetHighPrecisionTemp`. -/
def specSamsungNormalize (raw : ℚ) : ℚ :=
  if raw / 10 < 0 ∨ 1 < raw / 10 then 0 else raw / 10

/-- The three thermal provider variants probed by `CreateThermalProvider`. -/
inductive ProviderKind where
  | androidNative
  | androidJNI
  | samsung
deriving DecidableEq, Repr

/-- The device-fixed inputs of `CreateThermalProvider`: the Android API level
and, for each variant, whether its constructor's availability self-test
(`IsAvailable()`) would pass. -/
structure DeviceEnv where
  apiLevel : ℤ
  nativeAvailable : Bool
  jniAvailable : Bool
  samsungAvailable : Bool
deriving DecidableEq, Repr

/-- `CreateThermalProvider` (providers source in `ADPFManager.h`, lines
124–157): probe AndroidNativeProvider (API ≥ 31), then AndroidJNIProvider
(API ≥ 30), then SamsungProvider (API ≥ 28); return the first constructed
variant whose self-test passes, else null.  The code's pattern
`if (precondition) { construct; if (available) return it; }` falls through to
the next candidate when the self-test fails, which this if-chain encodes by
guarding each return with `precondition ∧ self-test`. -/
def CreateThermalProvider (d : DeviceEnv) : Option ProviderKind :=
  if 31 ≤ d.apiLevel ∧ d.nativeAvailable = true then some .androidNative
  else if 30 ≤ d.apiLevel ∧ d.jniAvailable = true then some .androidJNI
  else if 28 ≤ d.apiLevel ∧ d.samsungAvailable = true then some .samsung
  else none

/-- `kThermalHeadroomUpdateThreshold` (`ADPFManager.h` line 59): the debounce
window, in seconds, of the headroom refresh. -/
def kThermalHeadroomUpdateThreshold : ℚ := 15

/-- C++ value conversion of a non-negative-width signed value into `uint32_t`:
reduction modulo `2^32` (`Int.emod` is non-negative for a positive modulus). -/
def u32 (n : ℤ) : ℤ := n % 4294967296

/-- C++ cast of a float to an integer type: truncation toward zero. -/
def truncQ (q : ℚ) : ℤ := if 0 ≤ q then ⌊q⌋ else ⌈q⌉

/-- Round a rational to the nearest integer, ties to even (the IEEE default
rounding of a halfway significand). -/
def rne (q : ℚ) : ℤ :=
  if q - ⌊q⌋ < 1 / 2 then ⌊q⌋
  else if 1 / 2 < q - ⌊q⌋ then ⌊q⌋ + 1
  else if ⌊q⌋ % 2 = 0 then ⌊q⌋ else ⌊q⌋ + 1

/-- Round a positive rational to the nearest IEEE binary32 value (round to
nearest, ties to even): with exponent `e = ⌊log₂ q⌋`, round the scaled 24-bit
significand `q / 2^(e-23) ∈ [2^23, 2^24)` to the nearest integer and scale
back.  The exponent is unbounded, so this agrees with binary32 on every
normal, non-overflowing magnitude (all values arising here). -/
def roundF32pos (q : ℚ) : ℚ :=
  (rne (q / 2 ^ (Int.log 2 q - 23)) : ℚ) * 2 ^ (Int.log 2 q - 23)

/-- Round a rational to the nearest IEEE binary32 value (ties to even). -/
def roundF32 (q : ℚ) : ℚ :=
  if 0 < q then roundF32pos q
  else if q < 0 then -roundF32pos (-q)
  else 0

/-- `ADPFManager::fpsToNanosec` (`ADPFManager.cpp` lines 503–505):
`static_cast<jlong>(1000000000.0f / maxFPS)`.  The literal `1000000000.0f` is
exactly representable in binary32; the single-precision division rounds the
exact quotient to the nearest binary32 value, and the cast truncates toward
zero. -/
def fpsToNanosec (maxFPS : ℚ) : ℤ := truncQ (roundF32 (1000000000 / maxFPS))

/-- The fields of `ADPFManager` that the `Monitor()` control loop reads or
writes (`ADPFManager.h`; JNI handles and the scalability table are outside the
model). -/
structure ADPFState where
  initialized_performance_hint_manager : Bool
  support_performance_hint_manager : Bool
  thermal_status_ : ℤ
  thermal_headroom_ : FloatV
  last_clock_ : ℚ
  current_quality_level : ℤ
  target_quality_level : ℤ
  prev_max_fps : ℚ
  prev_max_fps_nano : ℤ
  fps_total : ℚ
  fps_count : ℤ
deriving DecidableEq, Repr

/-- The environment readings one `Monitor()` invocation consumes: the three
console variables, the monotonic clock, the headroom the platform would
report, whether `InitializePerformanceHintManager()` would succeed if
attempted, `GEngine->GetMaxFPS()`, `GGameThreadTime`, and `GAverageFPS`. -/
structure TickInput where
  enabled : Bool
  hintEnabled : Bool
  quality_mode : ℤ
  clock : ℚ
  headroom : FloatV
  initResult : Bool
  maxFps : ℚ
  gameThreadTime : ℤ
  avgFps : ℚ
deriving DecidableEq, Repr

/-- The externally observable side effects of one `Monitor()` invocation. -/
structure TickEffects where
  /-- The arguments of the `SetQualityLevels` calls emitted this tick, in
  order. -/
  appliedQualityLevels : List ℤ
  /-- Whether `InitializePerformanceHintManager()` was invoked this tick. -/
  initAttempted : Bool
  /-- Whether `DestroyPerformanceHintManager()` was invoked this tick. -/
  destroyedHint : Bool
  /-- `some target` when this tick pushed a new target duration to the hint
  sessions (`update_target_duration` true), `none` otherwise. -/
  targetDurationUpdate : Option ℤ
deriving DecidableEq, Repr

/-- The headroom-refresh / quality-control section of `ADPFManager::Monitor`
(`ADPFManager.cpp` lines 196–228), already past the early-out: refresh the
headroom when the debounce window elapsed, recompute the target under the
active policy, and apply a changed quality level.  Returns the updated state
and the list of `SetQualityLevels` applications. -/
def qualitySection (s : ADPFState) (i : TickInput) : ADPFState × List ℤ :=
  if kThermalHeadroomUpdateThreshold ≤ i.clock - s.last_clock_ then
    let s1 : ADPFState :=
      { s with thermal_headroom_ := i.headroom, last_clock_ := i.clock,
               fps_total := 0, fps_count := 0 }
    if i.quality_mode ≠ 0 then
      let s2 : ADPFState :=
        if i.quality_mode = 1 then
          { s1 with target_quality_level := saveQualityLevelFloat s1.thermal_headroom_ }
        else s1
      let new_target := u32 s2.target_quality_level
      if u32 s2.current_quality_level ≠ new_target then
        let nt := if max_quality_count < new_target then max_quality_count - 1 else new_target
        ({ s2 with current_quality_level := nt }, [nt])
      else (s2, [])
    else (s1, [])
  else (s, [])

/-- The performance-hint section of `ADPFManager::Monitor` (`ADPFManager.cpp`
lines 230–285): lazy one-shot initialization with sticky disable on failure,
target-duration recomputation when the configured max FPS changed, per-tick
duration reporting, and teardown when the hint feature is off or unsupported.
Returns the updated state with `(initAttempted, destroyedHint,
targetDurationUpdate)`. -/
def hintSection (s : ADPFState) (i : TickInput) : ADPFState × (Bool × Bool × Option ℤ) :=
  if i.hintEnabled && s.support_performance_hint_manager then
    let attempted := !s.initialized_performance_hint_manager
    let s1 : ADPFState :=
      if s.initialized_performance_hint_manager then s
      else if i.initResult then
        { s with initialized_performance_hint_manager := true, prev_max_fps := -1 }
      else
        { s with support_performance_hint_manager := false }
    if s1.initialized_performance_hint_manager then
      let t : ADPFState × ℤ × Bool :=
        if s1.prev_max_fps = i.maxFps then (s1, s1.prev_max_fps_nano, false)
        else
          let td := if i.maxFps ≤ 0 then 16666666 else fpsToNanosec i.maxFps
          ({ s1 with prev_max_fps := i.maxFps, prev_max_fps_nano := td }, td, true)
      let s3 : ADPFState :=
        if 0 < i.gameThreadTime then t.1 else { t.1 with prev_max_fps := -1 }
      (s3, (attempted, false, if t.2.2 then some t.2.1 else none))
    else (s1, (attempted, false, none))
  else if s.initialized_performance_hint_manager then
    ({ s with initialized_performance_hint_manager := false, prev_max_fps := -1 },
     (false, true, none))
  else (s, (false, false, none))

/-- The diagnostic FPS accumulation at the top of the enabled path of
`Monitor` (`ADPFManager.cpp` lines 191–193). -/
def fpsAccumulate (s : ADPFState) (i : TickInput) : ADPFState :=
  { s with fps_total := s.fps_total + i.avgFps, fps_count := s.fps_count + 1 }

/-- `ADPFManager::Monitor` (`ADPFManager.cpp` lines 177–287): early-out with
hint-session teardown when the plugin console variable is off; otherwise
accumulate the diagnostic FPS sample, run the quality section, then the hint
section. -/
def Monitor (s : ADPFState) (i : TickInput) : ADPFState × TickEffects :=
  if i.enabled = false then
    if s.initialized_performance_hint_manager then
      ({ s with initialized_performance_hint_manager := false, prev_max_fps := -1 },
       ⟨[], false, true, none⟩)
    else (s, ⟨[], false, false, none⟩)
  else
    let q := qualitySection (fpsAccumulate s i) i
    let h := hintSection q.1 i
    (h.1, ⟨q.2, h.2.1, h.2.2.1, h.2.2.2⟩)

/-- Run `Monitor` over a list of tick inputs, collecting each tick's effects. -/
def MonitorRun : ADPFState → List TickInput → ADPFState × List TickEffects
  | s, [] => (s, [])
  | s, i :: rest =>
    let m := Monitor s i
    let r := MonitorRun m.1 rest
    (r.1, m.2 :: r.2)

/-- Run `Monitor` over a list of tick inputs, collecting for every tick the
state at the start of the tick, the tick's input, and the tick's effects. -/
def MonitorTrace : ADPFState → List TickInput → List (ADPFState × TickInput × TickEffects)
  | _, [] => []
  | s, i :: rest => (s, i, (Monitor s i).2) :: MonitorTrace (Monitor s i).1 rest

/-- The `ADPFManager` constructor's field initialization (`ADPFManager.cpp`
lines 84–109): hint manager uninitialized but supported, quality levels at
`max_quality_count - 1`, `prev_max_fps = -1`, counters zeroed; the base clock
reading is taken as time 0. -/
def initialADPFState : ADPFState :=
  { initialized_performance_hint_manager := false
    support_performance_hint_manager := true
    thermal_status_ := 0
    thermal_headroom_ := FloatV.finite 0
    last_clock_ := 0
    current_quality_level := max_quality_count - 1
    target_quality_level := max_quality_count - 1
    prev_max_fps := -1
    prev_max_fps_nano := 0
    fps_total := 0
    fps_count := 0 }

/-- The recomputed target quality level for a refresh tick: under headroom
policy (`quality_mode = 1`) it is recomputed from this tick's headroom; under
any other policy the previous target stands. -/
def newTargetOf (s : ADPFState) (i : TickInput) : ℤ :=
  if i.quality_mode = 1 then saveQualityLevelFloat i.headroom else s.target_quality_level

/-- Both quality-level fields lie in the valid range `[0, max_quality_count - 1]`. -/
def QualityInv (s : ADPFState) : Prop :=
  0 ≤ s.current_quality_level ∧ s.current_quality_level ≤ max_quality_count - 1 ∧
  0 ≤ s.target_quality_level ∧ s.target_quality_level ≤ max_quality_count - 1

/-- What C2 asserts of a single tick: on an active refresh tick the apply
side effect fires exactly once when the recomputed target differs from the
current level — carrying the in-range (hence clamp-invariant) target, which
becomes the new current level — and fires zero times in every other case. -/
def QualityTickOk (s : ADPFState) (i : TickInput) (e : TickEffects) : Prop :=
  (i.enabled = true → kThermalHeadroomUpdateThreshold ≤ i.clock - s.last_clock_ →
    i.quality_mode ≠ 0 →
    (newTargetOf s i ≠ s.current_quality_level →
      e.appliedQualityLevels = [newTargetOf s i] ∧
      0 ≤ newTargetOf s i ∧ newTargetOf s i ≤ max_quality_count - 1 ∧
      (Monitor s i).1.current_quality_level = newTargetOf s i) ∧
    (newTargetOf s i = s.current_quality_level →
      e.appliedQualityLevels = [] ∧
      (Monitor s i).1.current_quality_level = s.current_quality_level)) ∧
  ((i.enabled = false ∨ i.clock - s.last_clock_ < kThermalHeadroomUpdateThreshold ∨
      i.quality_mode = 0) → e.appliedQualityLevels = [])

/-! ## Helper lemmas -/

theorem saveQualityLevelFloat_range (v : FloatV) :
    0 ≤ saveQualityLevelFloat v ∧ saveQualityLevelFloat v ≤ max_quality_count - 1 := by
  unfold saveQualityLevelFloat max_quality_count
  split_ifs <;> norm_num

theorem u32_small {t : ℤ} (h0 : 0 ≤ t) (h3 : t ≤ 3) : u32 t = t := by
  unfold u32
  omega

theorem qualitySection_hint_fields (s : ADPFState) (i : TickInput) :
    (qualitySection s i).1.support_performance_hint_manager =
      s.support_performance_hint_manager ∧
    (qualitySection s i).1.initialized_performance_hint_manager =
      s.initialized_performance_hint_manager ∧
    (qualitySection s i).1.prev_max_fps = s.prev_max_fps ∧
    (qualitySection s i).1.prev_max_fps_nano = s.prev_max_fps_nano := by
  unfold qualitySection
  dsimp only
  repeat' split
  all_goals simp

theorem hintSection_quality_fields (s : ADPFState) (i : TickInput) :
    (hintSection s i).1.current_quality_level = s.current_quality_level ∧
    (hintSection s i).1.target_quality_level = s.target_quality_level ∧
    (hintSection s i).1.thermal_headroom_ = s.thermal_headroom_ ∧
    (hintSection s i).1.last_clock_ = s.last_clock_ := by
  unfold hintSection
  dsimp only
  repeat' split
  all_goals simp


theorem u32_range {t : ℤ} (h0 : 0 ≤ t) (h3 : t ≤ max_quality_count - 1) : u32 t = t := by
  simp only [u32, max_quality_count] at *
  omega

theorem newTargetOf_range (s : ADPFState) (i : TickInput) (hinv : QualityInv s) :
    0 ≤ newTargetOf s i ∧ newTargetOf s i ≤ max_quality_count - 1 := by
  unfold newTargetOf
  split_ifs
  · exact saveQualityLevelFloat_range i.headroom
  · exact ⟨hinv.2.2.1, hinv.2.2.2⟩

theorem qualitySection_spec (s : ADPFState) (i : TickInput) (hinv : QualityInv s)
    (hrefresh : kThermalHeadroomUpdateThreshold ≤ i.clock - s.last_clock_)
    (hmode : i.quality_mode ≠ 0) :
    (qualitySection s i).1.target_quality_level = newTargetOf s i ∧
    (newTargetOf s i ≠ s.current_quality_level →
      (qualitySection s i).2 = [newTargetOf s i] ∧
      (qualitySection s i).1.current_quality_level = newTargetOf s i) ∧
    (newTargetOf s i = s.current_quality_level →
      (qualitySection s i).2 = [] ∧
      (qualitySection s i).1.current_quality_level = s.current_quality_level) := by
  obtain ⟨h0, h3⟩ := newTargetOf_range s i hinv
  have hcu : u32 s.current_quality_level = s.current_quality_level :=
    u32_range hinv.1 hinv.2.1
  have htg : u32 (newTargetOf s i) = newTargetOf s i := u32_range h0 h3
  have hclamp : ¬(max_quality_count < newTargetOf s i) := by
    simp only [max_quality_count] at *
    omega
  by_cases hm1 : i.quality_mode = 1
  · have hT : newTargetOf s i = saveQualityLevelFloat i.headroom := by
      unfold newTargetOf
      rw [if_pos hm1]
    rw [hT] at htg hclamp ⊢
    by_cases hne : saveQualityLevelFloat i.headroom = s.current_quality_level
    · simp [qualitySection, hrefresh, hmode, hm1, hcu, htg, hne]
    · simp [qualitySection, hrefresh, hmode, hm1, hcu, htg, hne, hclamp, Ne.symm hne]
  · have hT : newTargetOf s i = s.target_quality_level := by
      unfold newTargetOf
      rw [if_neg hm1]
    rw [hT] at htg hclamp ⊢
    by_cases hne : s.target_quality_level = s.current_quality_level
    · simp [qualitySection, hrefresh, hmode, hm1, hcu, htg, hne]
    · simp [qualitySection, hrefresh, hmode, hm1, hcu, htg, hne, hclamp, Ne.symm hne]

theorem qualitySection_no_refresh (s : ADPFState) (i : TickInput)
    (h : ¬ kThermalHeadroomUpdateThreshold ≤ i.clock - s.last_clock_) :
    qualitySection s i = (s, []) := by
  unfold qualitySection
  rw [if_neg h]

theorem qualitySection_mode_zero (s : ADPFState) (i : TickInput)
    (h : i.quality_mode = 0) :
    (qualitySection s i).2 = [] ∧
    (qualitySection s i).1.current_quality_level = s.current_quality_level ∧
    (qualitySection s i).1.target_quality_level = s.target_quality_level := by
  unfold qualitySection
  dsimp only
  split_ifs <;> simp_all

theorem qualitySection_preserves_inv (s : ADPFState) (i : TickInput)
    (hinv : QualityInv s) : QualityInv (qualitySection s i).1 := by
  by_cases hr : kThermalHeadroomUpdateThreshold ≤ i.clock - s.last_clock_
  · by_cases hm : i.quality_mode = 0
    · obtain ⟨_, hc, ht⟩ := qualitySection_mode_zero s i hm
      exact ⟨hc ▸ hinv.1, hc ▸ hinv.2.1, ht ▸ hinv.2.2.1, ht ▸ hinv.2.2.2⟩
    · obtain ⟨ht, hdiff, heq⟩ := qualitySection_spec s i hinv hr hm
      obtain ⟨h0, h3⟩ := newTargetOf_range s i hinv
      by_cases hne : newTargetOf s i = s.current_quality_level
      · obtain ⟨_, hc⟩ := heq hne
        exact ⟨hc ▸ hinv.1, hc ▸ hinv.2.1, ht ▸ h0, ht ▸ h3⟩
      · obtain ⟨_, hc⟩ := hdiff hne
        exact ⟨hc ▸ h0, hc ▸ h3, ht ▸ h0, ht ▸ h3⟩
  · rw [qualitySection_no_refresh s i hr]
    exact hinv

theorem monitor_disabled (s : ADPFState) (i : TickInput) (h : i.enabled = false) :
    (Monitor s i).2.appliedQualityLevels = [] ∧
    (Monitor s i).2.initAttempted = false ∧
    (Monitor s i).2.targetDurationUpdate = none ∧
    (s.initialized_performance_hint_manager = true →
      Monitor s i =
        ({ s with initialized_performance_hint_manager := false, prev_max_fps := -1 },
         ⟨[], false, true, none⟩)) ∧
    (s.initialized_performance_hint_manager = false →
      Monitor s i = (s, ⟨[], false, false, none⟩)) := by
  unfold Monitor
  rw [if_pos h]
  split_ifs with hi <;> simp_all

theorem monitor_enabled (s : ADPFState) (i : TickInput) (hen : i.enabled = true) :
    (Monitor s i).2.appliedQualityLevels = (qualitySection (fpsAccumulate s i) i).2 ∧
    (Monitor s i).1.current_quality_level =
      (qualitySection (fpsAccumulate s i) i).1.current_quality_level ∧
    (Monitor s i).1.target_quality_level =
      (qualitySection (fpsAccumulate s i) i).1.target_quality_level := by
  unfold Monitor
  rw [if_neg (by simp [hen])]
  dsimp only
  obtain ⟨hc, ht, _, _⟩ := hintSection_quality_fields (qualitySection (fpsAccumulate s i) i).1 i
  exact ⟨rfl, hc, ht⟩

theorem monitor_preserves_inv (s : ADPFState) (i : TickInput) (hinv : QualityInv s) :
    QualityInv (Monitor s i).1 := by
  by_cases hen : i.enabled = true
  · unfold Monitor
    rw [if_neg (by simp [hen])]
    dsimp only
    obtain ⟨hc, ht, _, _⟩ := hintSection_quality_fields (qualitySection (fpsAccumulate s i) i).1 i
    have hq : QualityInv (qualitySection (fpsAccumulate s i) i).1 :=
      qualitySection_preserves_inv (fpsAccumulate s i) i hinv
    exact ⟨hc ▸ hq.1, hc ▸ hq.2.1, ht ▸ hq.2.2.1, ht ▸ hq.2.2.2⟩
  · rw [Bool.not_eq_true] at hen
    unfold Monitor
    rw [if_pos hen]
    split_ifs <;> exact hinv

theorem newTargetOf_fpsAccumulate (s : ADPFState) (i : TickInput) :
    newTargetOf (fpsAccumulate s i) i = newTargetOf s i := rfl

theorem fpsAccumulate_current (s : ADPFState) (i : TickInput) :
    (fpsAccumulate s i).current_quality_level = s.current_quality_level := rfl

theorem monitor_tick_quality (s : ADPFState) (i : TickInput) (hinv : QualityInv s) :
    QualityTickOk s i (Monitor s i).2 := by
  constructor
  · intro hen hrefresh hmode
    obtain ⟨hA, hC, _⟩ := monitor_enabled s i hen
    have hrefresh2 : kThermalHeadroomUpdateThreshold ≤ i.clock - (fpsAccumulate s i).last_clock_ :=
      hrefresh
    have hfa : QualityInv (fpsAccumulate s i) := hinv
    obtain ⟨ht, hdiff, heq⟩ := qualitySection_spec (fpsAccumulate s i) i hfa hrefresh2 hmode
    obtain ⟨h0, h3⟩ := newTargetOf_range s i hinv
    constructor
    · intro hne
      have hne2 : newTargetOf (fpsAccumulate s i) i ≠ (fpsAccumulate s i).current_quality_level :=
        hne
      obtain ⟨ha, hc⟩ := hdiff hne2
      exact ⟨by rw [hA, ha, newTargetOf_fpsAccumulate], h0, h3,
        by rw [hC, hc, newTargetOf_fpsAccumulate]⟩
    · intro heq0
      have heq2 : newTargetOf (fpsAccumulate s i) i = (fpsAccumulate s i).current_quality_level :=
        heq0
      obtain ⟨ha, hc⟩ := heq heq2
      exact ⟨by rw [hA, ha], by rw [hC, hc, fpsAccumulate_current]⟩
  · intro hz
    by_cases hen : i.enabled = true
    · obtain ⟨hA, _, _⟩ := monitor_enabled s i hen
      rcases hz with h | h | h
      · rw [hen] at h
        exact absurd h (by simp)
      · rw [hA, qualitySection_no_refresh (fpsAccumulate s i) i (not_le.mpr h)]
      · rw [hA]
        exact (qualitySection_mode_zero (fpsAccumulate s i) i h).1
    · rw [Bool.not_eq_true] at hen
      exact (monitor_disabled s i hen).1


theorem monitor_trace_quality (inputs : List TickInput) :
    ∀ s : ADPFState, QualityInv s →
      ∀ x ∈ MonitorTrace s inputs, QualityTickOk x.1 x.2.1 x.2.2 := by
  induction inputs with
  | nil =>
    intro s _ x hx
    simp [MonitorTrace] at hx
  | cons i rest ih =>
    intro s hs x hx
    simp only [MonitorTrace, List.mem_cons] at hx
    rcases hx with rfl | hx
    · exact monitor_tick_quality s i hs
    · exact ih (Monitor s i).1 (monitor_preserves_inv s i hs) x hx

-- hintSection characterizations
theorem fpsAccumulate_support (s : ADPFState) (i : TickInput) :
    (fpsAccumulate s i).support_performance_hint_manager =
      s.support_performance_hint_manager := rfl

theorem fpsAccumulate_initialized (s : ADPFState) (i : TickInput) :
    (fpsAccumulate s i).initialized_performance_hint_manager =
      s.initialized_performance_hint_manager := rfl

theorem fpsAccumulate_prev (s : ADPFState) (i : TickInput) :
    (fpsAccumulate s i).prev_max_fps = s.prev_max_fps := rfl

theorem hintSection_support_false (s : ADPFState) (i : TickInput)
    (h : s.support_performance_hint_manager = false) :
    (hintSection s i).1.support_performance_hint_manager = false ∧
    (hintSection s i).2.1 = false := by
  unfold hintSection
  rw [h, Bool.and_false]
  split_ifs <;> simp_all

theorem monitor_support_latch (s : ADPFState) (i : TickInput)
    (h : s.support_performance_hint_manager = false) :
    (Monitor s i).1.support_performance_hint_manager = false ∧
    (Monitor s i).2.initAttempted = false := by
  by_cases hen : i.enabled = true
  · unfold Monitor
    rw [if_neg (by simp [hen])]
    dsimp only
    have hq : (qualitySection (fpsAccumulate s i) i).1.support_performance_hint_manager = false := by
      rw [(qualitySection_hint_fields (fpsAccumulate s i) i).1]
      exact h
    exact hintSection_support_false _ i hq
  · rw [Bool.not_eq_true] at hen
    unfold Monitor
    rw [if_pos hen]
    split_ifs <;> simp [h]

theorem monitorRun_support_latch (inputs : List TickInput) :
    ∀ s : ADPFState, s.support_performance_hint_manager = false →
      (MonitorRun s inputs).1.support_performance_hint_manager = false ∧
      ∀ e ∈ (MonitorRun s inputs).2, e.initAttempted = false := by
  induction inputs with
  | nil =>
    intro s hs
    exact ⟨hs, by simp [MonitorRun]⟩
  | cons i rest ih =>
    intro s hs
    obtain ⟨h1, h2⟩ := monitor_support_latch s i hs
    obtain ⟨h3, h4⟩ := ih (Monitor s i).1 h1
    refine ⟨h3, ?_⟩
    intro e he
    simp only [MonitorRun, List.mem_cons] at he
    rcases he with rfl | he
    · exact h2
    · exact h4 e he

theorem monitor_init_failure (s : ADPFState) (i : TickInput)
    (hen : i.enabled = true) (hhint : i.hintEnabled = true)
    (hsup : s.support_performance_hint_manager = true)
    (hini : s.initialized_performance_hint_manager = false)
    (hfail : i.initResult = false) :
    (Monitor s i).2.initAttempted = true ∧
    (Monitor s i).1.support_performance_hint_manager = false := by
  unfold Monitor
  rw [if_neg (by simp [hen])]
  dsimp only
  obtain ⟨hqs, hqi, _, _⟩ := qualitySection_hint_fields (fpsAccumulate s i) i
  unfold hintSection
  rw [hqs, hqi, fpsAccumulate_support, fpsAccumulate_initialized, hsup, hini, hfail, hhint]
  simp


theorem hintSection_target_update (s : ADPFState) (i : TickInput)
    (hhint : i.hintEnabled = true) (hsup : s.support_performance_hint_manager = true)
    (hini : s.initialized_performance_hint_manager = true)
    (hch : ¬ s.prev_max_fps = i.maxFps) :
    (hintSection s i).2.2.2 =
      some (if i.maxFps ≤ 0 then 16666666 else fpsToNanosec i.maxFps) ∧
    (hintSection s i).1.prev_max_fps_nano =
      (if i.maxFps ≤ 0 then 16666666 else fpsToNanosec i.maxFps) := by
  simp only [hintSection, hsup, hini, hhint, Bool.and_self, if_true]
  rw [if_neg hch]
  split_ifs <;> simp_all

theorem monitor_target_update (s : ADPFState) (i : TickInput)
    (hen : i.enabled = true) (hhint : i.hintEnabled = true)
    (hsup : s.support_performance_hint_manager = true)
    (hini : s.initialized_performance_hint_manager = true)
    (hch : ¬ s.prev_max_fps = i.maxFps) :
    (Monitor s i).2.targetDurationUpdate =
      some (if i.maxFps ≤ 0 then 16666666 else fpsToNanosec i.maxFps) ∧
    (Monitor s i).1.prev_max_fps_nano =
      (if i.maxFps ≤ 0 then 16666666 else fpsToNanosec i.maxFps) := by
  unfold Monitor
  rw [if_neg (by simp [hen])]
  dsimp only
  obtain ⟨hqs, hqi, hqp, _⟩ := qualitySection_hint_fields (fpsAccumulate s i) i
  exact hintSection_target_update (qualitySection (fpsAccumulate s i) i).1 i hhint
    (by rw [hqs, fpsAccumulate_support]; exact hsup)
    (by rw [hqi, fpsAccumulate_initialized]; exact hini)
    (by rw [hqp, fpsAccumulate_prev]; exact hch)


theorem initialADPFState_inv : QualityInv initialADPFState := by
  unfold QualityInv initialADPFState max_quality_count
  norm_num

theorem qualitySection_target_mode_ne_one (s : ADPFState) (i : TickInput)
    (hm : i.quality_mode ≠ 1) :
    (qualitySection s i).1.target_quality_level = s.target_quality_level := by
  unfold qualitySection
  dsimp only
  split_ifs <;> simp_all

theorem fpsAccumulate_target (s : ADPFState) (i : TickInput) :
    (fpsAccumulate s i).target_quality_level = s.target_quality_level := rfl

/-! ## Claims -/

/-- C1: for every (finite) headroom value `h` fed to `saveQualityLevel(float)`,
the resulting `target_quality_level` is exactly 3 if `h < 0.75`, 2 if
`0.75 ≤ h < 0.85`, 1 if `0.85 ≤ h < 0.95`, and 0 if `h ≥ 0.95` — each `h`
falls in exactly one of the four ranges, and the boundary values `0.75`,
`0.85`, `0.95` map to the lower level (2, 1, 0 respectively). -/
theorem saveQualityLevel_headroom_policy :
    (∀ q : ℚ,
      (q < 0.75 ∧ saveQualityLevelFloat (FloatV.finite q) = 3) ∨
      (0.75 ≤ q ∧ q < 0.85 ∧ saveQualityLevelFloat (FloatV.finite q) = 2) ∨
      (0.85 ≤ q ∧ q < 0.95 ∧ saveQualityLevelFloat (FloatV.finite q) = 1) ∨
      (0.95 ≤ q ∧ saveQualityLevelFloat (FloatV.finite q) = 0)) ∧
    saveQualityLevelFloat (FloatV.finite 0.75) = 2 ∧
    saveQualityLevelFloat (FloatV.finite 0.85) = 1 ∧
    saveQualityLevelFloat (FloatV.finite 0.95) = 0 := by
  refine ⟨fun q => ?_, ?_, ?_, ?_⟩
  · unfold saveQualityLevelFloat
    simp only [FloatV.lt, decide_eq_true_eq]
    split_ifs with h1 h2 h3
    · exact Or.inl ⟨h1, rfl⟩
    · exact Or.inr (Or.inl ⟨le_of_not_lt h1, h2, rfl⟩)
    · exact Or.inr (Or.inr (Or.inl ⟨le_of_not_lt h2, h3, rfl⟩))
    · exact Or.inr (Or.inr (Or.inr ⟨le_of_not_lt h3, rfl⟩))
  · norm_num [saveQualityLevelFloat, FloatV.lt]
  · norm_num [saveQualityLevelFloat, FloatV.lt]
  · norm_num [saveQualityLevelFloat, FloatV.lt]

/-- C2: along every run of `Monitor` from the constructor state, a tick whose
refresh is active (plugin enabled, debounce window elapsed, quality mode on)
emits exactly one `SetQualityLevels` application — carrying the in-range
recomputed target, which becomes the new `current_quality_level` — when that
target differs from the current level, and zero applications when it does
not; every other tick emits zero applications. -/
theorem monitor_quality_apply_once (inputs : List TickInput) :
    ∀ x ∈ MonitorTrace initialADPFState inputs, QualityTickOk x.1 x.2.1 x.2.2 :=
  monitor_trace_quality inputs initialADPFState initialADPFState_inv

/-- A refresh tick under the headroom policy with headroom reading 0.96. -/
def refreshTick96 : TickInput :=
  { enabled := true, hintEnabled := false, quality_mode := 1, clock := 15,
    headroom := FloatV.finite 0.96, initResult := false, maxFps := 0,
    gameThreadTime := 0, avgFps := 0 }

theorem monitor_quality_apply_once_witness :
    QualityTickOk initialADPFState refreshTick96
      (Monitor initialADPFState refreshTick96).2 :=
  monitor_quality_apply_once [refreshTick96]
    (initialADPFState, refreshTick96, (Monitor initialADPFState refreshTick96).2)
    (by simp [MonitorTrace])

/-- C3: once `InitializePerformanceHintManager` fails on some tick, the
support flag is latched to false and stays false over every later tick of
the run, and no later tick attempts initialization again — whatever the
later readings of the enable and hint-enable console variables are. -/
theorem hint_init_failure_sticky (s : ADPFState) (i : TickInput)
    (rest : List TickInput)
    (hen : i.enabled = true) (hhint : i.hintEnabled = true)
    (hsup : s.support_performance_hint_manager = true)
    (hini : s.initialized_performance_hint_manager = false)
    (hfail : i.initResult = false) :
    (Monitor s i).2.initAttempted = true ∧
    (Monitor s i).1.support_performance_hint_manager = false ∧
    (MonitorRun (Monitor s i).1 rest).1.support_performance_hint_manager = false ∧
    ∀ e ∈ (MonitorRun (Monitor s i).1 rest).2, e.initAttempted = false := by
  obtain ⟨h1, h2⟩ := monitor_init_failure s i hen hhint hsup hini hfail
  obtain ⟨h3, h4⟩ := monitorRun_support_latch rest (Monitor s i).1 h2
  exact ⟨h1, h2, h3, h4⟩

/-- A tick with every feature on whose hint-manager initialization fails. -/
def failingInitTick : TickInput :=
  { enabled := true, hintEnabled := true, quality_mode := 0, clock := 0,
    headroom := FloatV.finite 0, initResult := false, maxFps := 0,
    gameThreadTime := 0, avgFps := 0 }

/-- A later tick that re-enables the hint feature and whose initialization
would succeed if it were (wrongly) re-attempted. -/
def reEnabledTick : TickInput :=
  { enabled := true, hintEnabled := true, quality_mode := 0, clock := 0,
    headroom := FloatV.finite 0, initResult := true, maxFps := 0,
    gameThreadTime := 0, avgFps := 0 }

theorem hint_init_failure_sticky_witness :
    (Monitor initialADPFState failingInitTick).2.initAttempted = true ∧
    (Monitor initialADPFState failingInitTick).1.support_performance_hint_manager
      = false ∧
    (MonitorRun (Monitor initialADPFState failingInitTick).1
      [reEnabledTick]).1.support_performance_hint_manager = false :=
  ⟨(hint_init_failure_sticky initialADPFState failingInitTick [reEnabledTick]
      rfl rfl rfl rfl rfl).1,
   (hint_init_failure_sticky initialADPFState failingInitTick [reEnabledTick]
      rfl rfl rfl rfl rfl).2.1,
   (hint_init_failure_sticky initialADPFState failingInitTick [reEnabledTick]
      rfl rfl rfl rfl rfl).2.2.1⟩

/-- C4: `CreateThermalProvider` probes AndroidNativeProvider (API ≥ 31), then
AndroidJNIProvider (API ≥ 30), then SamsungProvider (API ≥ 28), returns the
first constructed variant whose self-test passes, returns none exactly when
each candidate fails its version precondition or its self-test, and is
deterministic in the API level and availability vector. -/
theorem CreateThermalProvider_selection (d : DeviceEnv) :
    (31 ≤ d.apiLevel → d.nativeAvailable = true →
        CreateThermalProvider d = some ProviderKind.androidNative) ∧
    ((d.apiLevel < 31 ∨ d.nativeAvailable = false) → 30 ≤ d.apiLevel →
        d.jniAvailable = true →
        CreateThermalProvider d = some ProviderKind.androidJNI) ∧
    ((d.apiLevel < 31 ∨ d.nativeAvailable = false) →
        (d.apiLevel < 30 ∨ d.jniAvailable = false) → 28 ≤ d.apiLevel →
        d.samsungAvailable = true →
        CreateThermalProvider d = some ProviderKind.samsung) ∧
    (CreateThermalProvider d = none ↔
      ((31 ≤ d.apiLevel → d.nativeAvailable = false) ∧
       (30 ≤ d.apiLevel → d.jniAvailable = false) ∧
       (28 ≤ d.apiLevel → d.samsungAvailable = false))) ∧
    (∀ d2 : DeviceEnv, d2.apiLevel = d.apiLevel →
      d2.nativeAvailable = d.nativeAvailable → d2.jniAvailable = d.jniAvailable →
      d2.samsungAvailable = d.samsungAvailable →
      CreateThermalProvider d2 = CreateThermalProvider d) := by
  refine ⟨?_, ?_, ?_, ?_, fun d2 ha hb hc hd => ?_⟩
  · intro hapi hav
    unfold CreateThermalProvider
    rw [if_pos ⟨hapi, hav⟩]
  · intro hno hapi hav
    unfold CreateThermalProvider
    rw [if_neg ?_, if_pos ⟨hapi, hav⟩]
    rcases hno with h | h
    · exact fun hc => absurd hc.1 (not_le.mpr h)
    · exact fun hc => by rw [h] at hc; exact absurd hc.2 (by simp)
  · intro hno1 hno2 hapi hav
    unfold CreateThermalProvider
    rw [if_neg ?_, if_neg ?_, if_pos ⟨hapi, hav⟩]
    · rcases hno2 with h | h
      · exact fun hc => absurd hc.1 (not_le.mpr h)
      · exact fun hc => by rw [h] at hc; exact absurd hc.2 (by simp)
    · rcases hno1 with h | h
      · exact fun hc => absurd hc.1 (not_le.mpr h)
      · exact fun hc => by rw [h] at hc; exact absurd hc.2 (by simp)
  · unfold CreateThermalProvider
    split_ifs with h1 h2 h3 <;> constructor
    · intro hc
      exact absurd hc (by simp)
    · intro ⟨c1, c2, c3⟩
      rw [c1 (by omega : 31 ≤ d.apiLevel)] at h1
      exact absurd h1.2 (by simp)
    · intro hc
      exact absurd hc (by simp)
    · intro ⟨c1, c2, c3⟩
      rw [c2 (by omega : 30 ≤ d.apiLevel)] at h2
      exact absurd h2.2 (by simp)
    · intro hc
      exact absurd hc (by simp)
    · intro ⟨c1, c2, c3⟩
      rw [c3 (by omega : 28 ≤ d.apiLevel)] at h3
      exact absurd h3.2 (by simp)
    · intro _
      refine ⟨fun hapi => ?_, fun hapi => ?_, fun hapi => ?_⟩
      · rcases Bool.eq_false_or_eq_true d.nativeAvailable with h | h
        · exact absurd ⟨hapi, h⟩ h1
        · exact h
      · rcases Bool.eq_false_or_eq_true d.jniAvailable with h | h
        · exact absurd ⟨hapi, h⟩ h2
        · exact h
      · rcases Bool.eq_false_or_eq_true d.samsungAvailable with h | h
        · exact absurd ⟨hapi, h⟩ h3
        · exact h
    · intro _
      rfl
  · have : d2 = d := by
      obtain ⟨a1, a2, a3, a4⟩ := d2
      obtain ⟨b1, b2, b3, b4⟩ := d
      simp_all
    rw [this]

/-- A device at API level 31 whose native provider self-test fails but whose
JNI provider self-test passes. -/
def jniFallbackDevice : DeviceEnv :=
  { apiLevel := 31, nativeAvailable := false, jniAvailable := true,
    samsungAvailable := true }

theorem CreateThermalProvider_selection_witness :
    CreateThermalProvider jniFallbackDevice = some ProviderKind.androidJNI :=
  (CreateThermalProvider_selection jniFallbackDevice).2.1 (Or.inr rfl)
    (by norm_num [jniFallbackDevice]) rfl


/-- C5 counterexample: the claimed status policy `target = (K-1) -
ordinal(status)` disagrees with `saveQualityLevel(int32_t)` at status `NONE`
(ordinal 0) with previous target 3: the code stores 0, the claimed formula
gives 3. -/
theorem status_policy_counterexample :
    saveQualityLevelInt 3 ThermalStatus.NONE.toInt = 0 ∧
    specStatusPolicy ThermalStatus.NONE = 3 ∧
    saveQualityLevelInt 3 ThermalStatus.NONE.toInt ≠
      specStatusPolicy ThermalStatus.NONE := by
  refine ⟨?_, ?_, ?_⟩ <;>
    norm_num [saveQualityLevelInt, specStatusPolicy, ThermalStatus.toInt,
      max_quality_count]

/-- C5 amended: `saveQualityLevel(int32_t)` stores the status ordinal itself
as the target when it lies in `[0, K-1]` and leaves the target unchanged
otherwise (no `(K-1) - ordinal` reflection, no clamping of out-of-range
ordinals); moreover in this version `Monitor`'s status-policy mode
(`quality_mode = 2`) never recomputes the target at all. -/
theorem saveQualityLevelInt_direct_mapping (t : ℤ) (st : ThermalStatus) :
    (0 ≤ st.toInt → st.toInt ≤ max_quality_count - 1 →
      saveQualityLevelInt t st.toInt = st.toInt) ∧
    (st.toInt < 0 ∨ max_quality_count - 1 < st.toInt →
      saveQualityLevelInt t st.toInt = t) ∧
    (∀ s : ADPFState, ∀ i : TickInput, i.quality_mode = 2 →
      (Monitor s i).1.target_quality_level = s.target_quality_level) := by
  refine ⟨?_, ?_, ?_⟩
  · intro h0 h3
    unfold saveQualityLevelInt
    rw [if_pos ⟨h0, by simp only [max_quality_count] at *; omega⟩]
  · intro h
    unfold saveQualityLevelInt
    rw [if_neg (by simp only [max_quality_count] at *; omega)]
  · intro s i hm
    by_cases hen : i.enabled = true
    · obtain ⟨_, _, hT⟩ := monitor_enabled s i hen
      rw [hT, qualitySection_target_mode_ne_one _ i (by rw [hm]; norm_num),
        fpsAccumulate_target]
    · rw [Bool.not_eq_true] at hen
      obtain ⟨_, _, _, h4, h5⟩ := monitor_disabled s i hen
      by_cases hi : s.initialized_performance_hint_manager = true
      · rw [h4 hi]
      · rw [Bool.not_eq_true] at hi
        rw [h5 hi]

/-- A tick running the status-policy quality mode. -/
def statusModeTick : TickInput :=
  { enabled := true, hintEnabled := false, quality_mode := 2, clock := 15,
    headroom := FloatV.finite 0, initResult := false, maxFps := 0,
    gameThreadTime := 0, avgFps := 0 }

theorem saveQualityLevelInt_direct_mapping_witness :
    saveQualityLevelInt 3 ThermalStatus.LIGHT.toInt = ThermalStatus.LIGHT.toInt ∧
    saveQualityLevelInt 7 ThermalStatus.CRITICAL.toInt = 7 ∧
    (Monitor initialADPFState statusModeTick).1.target_quality_level =
      initialADPFState.target_quality_level :=
  ⟨(saveQualityLevelInt_direct_mapping 3 ThermalStatus.LIGHT).1
      (by decide) (by decide),
   (saveQualityLevelInt_direct_mapping 7 ThermalStatus.CRITICAL).2.1
      (Or.inr (by decide)),
   (saveQualityLevelInt_direct_mapping 0 ThermalStatus.NONE).2.2
      initialADPFState statusModeTick rfl⟩

/-- A state with a live hint session, as left by a successful initialization. -/
def liveHintState : ADPFState :=
  { initialADPFState with initialized_performance_hint_manager := true }

/-- A tick on which the plugin console variable reads disabled. -/
def disabledTick : TickInput :=
  { enabled := false, hintEnabled := true, quality_mode := 1, clock := 20,
    headroom := FloatV.finite 0.5, initResult := true, maxFps := 30,
    gameThreadTime := 1, avgFps := 60 }

/-- C6 counterexample: a disabled-tick `Monitor` call from a state with a
live hint session does mutate the manager — it clears the initialized flag
(and resets `prev_max_fps`) while tearing the session down — so not every
field holds the same value after the call. -/
theorem monitor_disabled_counterexample :
    disabledTick.enabled = false ∧
    liveHintState.initialized_performance_hint_manager = true ∧
    (Monitor liveHintState disabledTick).1.initialized_performance_hint_manager
      = false ∧
    (Monitor liveHintState disabledTick).1 ≠ liveHintState := by
  refine ⟨rfl, rfl, ?_, ?_⟩
  · norm_num [Monitor, liveHintState, disabledTick, initialADPFState]
  · intro hcontra
    have h := congrArg ADPFState.initialized_performance_hint_manager hcontra
    norm_num [Monitor, liveHintState, disabledTick, initialADPFState] at h

/-- C6 amended: a disabled tick performs no headroom refresh, no quality
mutation, no FPS accumulation, no init attempt and no target-duration push;
its only mutation is the hint-session teardown when a session is live
(clearing the initialized flag and resetting `prev_max_fps`), and with no
live session the state is returned completely unchanged. -/
theorem monitor_disabled_no_quality_mutation (s : ADPFState) (i : TickInput)
    (hdis : i.enabled = false) :
    (Monitor s i).2.appliedQualityLevels = [] ∧
    (Monitor s i).2.initAttempted = false ∧
    (Monitor s i).2.targetDurationUpdate = none ∧
    (Monitor s i).1.thermal_headroom_ = s.thermal_headroom_ ∧
    (Monitor s i).1.last_clock_ = s.last_clock_ ∧
    (Monitor s i).1.current_quality_level = s.current_quality_level ∧
    (Monitor s i).1.target_quality_level = s.target_quality_level ∧
    (Monitor s i).1.fps_total = s.fps_total ∧
    (Monitor s i).1.fps_count = s.fps_count ∧
    (Monitor s i).1.support_performance_hint_manager =
      s.support_performance_hint_manager ∧
    (s.initialized_performance_hint_manager = false →
      (Monitor s i).1 = s ∧ (Monitor s i).2.destroyedHint = false) ∧
    (s.initialized_performance_hint_manager = true →
      (Monitor s i).1 =
        { s with initialized_performance_hint_manager := false,
                 prev_max_fps := -1 } ∧
      (Monitor s i).2.destroyedHint = true) := by
  obtain ⟨h1, h2, h3, h4, h5⟩ := monitor_disabled s i hdis
  by_cases hi : s.initialized_performance_hint_manager = true
  · rw [h4 hi]
    refine ⟨rfl, rfl, rfl, rfl, rfl, rfl, rfl, rfl, rfl, rfl, ?_,
      fun _ => ⟨rfl, rfl⟩⟩
    intro hf
    rw [hi] at hf
    exact absurd hf (by simp)
  · rw [Bool.not_eq_true] at hi
    rw [h5 hi]
    refine ⟨rfl, rfl, rfl, rfl, rfl, rfl, rfl, rfl, rfl, rfl,
      fun _ => ⟨rfl, rfl⟩, ?_⟩
    intro htrue
    rw [htrue] at hi
    exact absurd hi (by simp)

theorem monitor_disabled_no_quality_mutation_witness :
    (Monitor initialADPFState disabledTick).2.appliedQualityLevels = [] ∧
    (Monitor initialADPFState disabledTick).1 = initialADPFState :=
  ⟨(monitor_disabled_no_quality_mutation initialADPFState disabledTick rfl).1,
   ((monitor_disabled_no_quality_mutation initialADPFState disabledTick
      rfl).2.2.2.2.2.2.2.2.2.2.1 rfl).1⟩

theorem roundF32pos_spec (q : ℚ) (e : ℤ) (h1 : (2 : ℚ) ^ e ≤ q)
    (h2 : q < (2 : ℚ) ^ (e + 1)) :
    roundF32pos q = (rne (q / 2 ^ (e - 23)) : ℚ) * 2 ^ (e - 23) := by
  have hq : 0 < q := lt_of_lt_of_le (by positivity) h1
  have hlog : Int.log 2 q = e := by
    have hle : e ≤ Int.log 2 q := by
      rw [← Int.zpow_le_iff_le_log (by norm_num) hq]
      exact_mod_cast h1
    have hlt : Int.log 2 q < e + 1 := by
      rw [← Int.lt_zpow_iff_log_lt (by norm_num) hq]
      exact_mod_cast h2
    omega
  unfold roundF32pos
  rw [hlog]

theorem roundF32pos_1e9_div_30 :
    roundF32pos ((1000000000 : ℚ) / 30) = 33333334 := by
  rw [roundF32pos_spec ((1000000000 : ℚ) / 30) 24 (by norm_num) (by norm_num)]
  have hm : ((1000000000 : ℚ) / 30) / 2 ^ ((24 : ℤ) - 23) = 50000000 / 3 := by
    norm_num
  rw [hm]
  have hrne : rne ((50000000 : ℚ) / 3) = 16666667 := by
    unfold rne
    have hfl : ⌊(50000000 : ℚ) / 3⌋ = 16666666 := by norm_num
    rw [hfl]
    norm_num
  rw [hrne]
  norm_num

theorem roundF32pos_1e9_div_3 :
    roundF32pos ((1000000000 : ℚ) / 3) = 333333344 := by
  rw [roundF32pos_spec ((1000000000 : ℚ) / 3) 28 (by norm_num) (by norm_num)]
  have hm : ((1000000000 : ℚ) / 3) / 2 ^ ((28 : ℤ) - 23) = 31250000 / 3 := by
    norm_num
  rw [hm]
  have hrne : rne ((31250000 : ℚ) / 3) = 10416667 := by
    unfold rne
    have hfl : ⌊(31250000 : ℚ) / 3⌋ = 10416666 := by norm_num
    rw [hfl]
    norm_num
  rw [hrne]
  norm_num

theorem fpsToNanosec_30 : fpsToNanosec 30 = 33333334 := by
  unfold fpsToNanosec roundF32
  rw [if_pos (by norm_num : (0 : ℚ) < 1000000000 / 30), roundF32pos_1e9_div_30]
  norm_num [truncQ]

theorem fpsToNanosec_3 : fpsToNanosec 3 = 333333344 := by
  unfold fpsToNanosec roundF32
  rw [if_pos (by norm_num : (0 : ℚ) < 1000000000 / 3), roundF32pos_1e9_div_3]
  norm_num [truncQ]

/-- A state with a live hint session that has not yet seen any max FPS. -/
def fps30State : ADPFState :=
  { initialADPFState with initialized_performance_hint_manager := true }

/-- A hint-enabled tick with the configured max FPS at 30. -/
def fps30Tick : TickInput :=
  { enabled := true, hintEnabled := true, quality_mode := 0, clock := 0,
    headroom := FloatV.nan, initResult := true, maxFps := 30,
    gameThreadTime := 1, avgFps := 0 }

/-- C7 counterexample: on a tick where the configured max FPS changed to 30,
the code pushes 33333334 ns — the binary32 quotient `1e9 / 30` (which rounds
up to 33333334.0f) truncated — while `round(1e9 / 30) = 33333333`, so the
claimed `round(1e9 / maxFps)` formula is false at the claim's own featured
input. -/
theorem fps_round_counterexample :
    (Monitor fps30State fps30Tick).2.targetDurationUpdate = some 33333334 ∧
    round ((1000000000 : ℚ) / 30) = 33333333 ∧
    (Monitor fps30State fps30Tick).2.targetDurationUpdate ≠
      some (round ((1000000000 : ℚ) / 30)) := by
  have h1 : (Monitor fps30State fps30Tick).2.targetDurationUpdate =
      some 33333334 := by
    obtain ⟨h, _⟩ := monitor_target_update fps30State fps30Tick rfl rfl rfl rfl
      (by norm_num [fps30State, fps30Tick, initialADPFState])
    rw [h]
    norm_num [fps30Tick, fpsToNanosec_30]
  have h2 : round ((1000000000 : ℚ) / 30) = 33333333 := by
    rw [round_eq]
    norm_num
  refine ⟨h1, h2, ?_⟩
  rw [h1, h2]
  norm_num

/-- C7 amended: on every tick on which the configured max FPS changed (with
the hint feature live), the new target duration is the fixed default
`16666666` ns if `maxFps ≤ 0` and otherwise the single-precision quotient
`1e9 / maxFps` — the exact quotient rounded to the nearest binary32 value —
truncated toward zero.  `maxFps = 30` yields 33333334 ns, within the claimed
±1 of 33333333 but not equal to `round(1e9/30) = 33333333`; the deviation
from `round(1e9/maxFps)` is not bounded by 1 ns in general: `maxFps = 3`
yields 333333344 ns, 11 above `round(1e9/3) = 333333333`. -/
theorem hint_target_duration_on_fps_change (s : ADPFState) (i : TickInput)
    (hen : i.enabled = true) (hhint : i.hintEnabled = true)
    (hsup : s.support_performance_hint_manager = true)
    (hini : s.initialized_performance_hint_manager = true)
    (hch : ¬ s.prev_max_fps = i.maxFps) :
    (Monitor s i).2.targetDurationUpdate =
      some (if i.maxFps ≤ 0 then 16666666 else fpsToNanosec i.maxFps) ∧
    (Monitor s i).1.prev_max_fps_nano =
      (if i.maxFps ≤ 0 then 16666666 else fpsToNanosec i.maxFps) ∧
    fpsToNanosec 30 = 33333334 ∧
    |(fpsToNanosec 30 : ℤ) - 33333333| ≤ 1 ∧
    round ((1000000000 : ℚ) / 30) = 33333333 ∧
    fpsToNanosec 3 = 333333344 ∧
    round ((1000000000 : ℚ) / 3) = 333333333 := by
  obtain ⟨h1, h2⟩ := monitor_target_update s i hen hhint hsup hini hch
  refine ⟨h1, h2, fpsToNanosec_30, ?_, ?_, fpsToNanosec_3, ?_⟩
  · rw [fpsToNanosec_30]
    norm_num
  · rw [round_eq]
    norm_num
  · rw [round_eq]
    norm_num

theorem hint_target_duration_on_fps_change_witness :
    (Monitor fps30State fps30Tick).2.targetDurationUpdate =
      some (if (30 : ℚ) ≤ 0 then 16666666 else fpsToNanosec 30) ∧
    fpsToNanosec 30 = 33333334 :=
  ⟨(hint_target_duration_on_fps_change fps30State fps30Tick rfl rfl rfl rfl
      (by norm_num [fps30State, fps30Tick, initialADPFState])).1,
   (hint_target_duration_on_fps_change fps30State fps30Tick rfl rfl rfl rfl
      (by norm_num [fps30State, fps30Tick, initialADPFState])).2.2.1⟩

/-- C8: the Samsung warning-level remapping takes 0 to NONE, 1 to MODERATE,
2 to SEVERE and the sentinel -999 to ERROR, so the input sequence
`[0, 1, 2, -999]` maps to `[NONE, MODERATE, SEVERE, ERROR]`. -/
theorem ToThermalStatus_mapping :
    ToThermalStatus 0 = ThermalStatus.NONE ∧
    ToThermalStatus 1 = ThermalStatus.MODERATE ∧
    ToThermalStatus 2 = ThermalStatus.SEVERE ∧
    ToThermalStatus (-999) = ThermalStatus.ERROR ∧
    List.map ToThermalStatus [0, 1, 2, -999] =
      [ThermalStatus.NONE, ThermalStatus.MODERATE, ThermalStatus.SEVERE,
       ThermalStatus.ERROR] := by
  decide

/-- C9 counterexample: at the raw reading 10 (inside the documented `[0,10]`
range) the code returns headroom 0, while normalizing into `[0,1]` with
clamping only of out-of-range-or-negative results would return 1: the code
also zeroes a normalized result of exactly 1. -/
theorem samsung_headroom_boundary_counterexample :
    FJavaSamsungGameSDK.GetHighPrecisionTemp 10 = 0 ∧
    specSamsungNormalize 10 = 1 ∧
    FJavaSamsungGameSDK.GetHighPrecisionTemp 10 ≠ specSamsungNormalize 10 := by
  refine ⟨?_, ?_, ?_⟩ <;>
    norm_num [FJavaSamsungGameSDK.GetHighPrecisionTemp, specSamsungNormalize]

/-- C9 amended: the Samsung headroom divides the raw reading by 10 and clamps
to 0 every normalized result that is `≥ 1` or `< 0`, so the returned headroom
always lies in `[0, 1)` (hence in `[0, 1]`); readings in `[0, 10)` pass
through as `raw / 10`, and `SamsungProvider::GetThermalHeadroom` returns this
value for every forecast horizon. -/
theorem samsung_headroom_normalized_range (raw : ℚ) :
    0 ≤ FJavaSamsungGameSDK.GetHighPrecisionTemp raw ∧
    FJavaSamsungGameSDK.GetHighPrecisionTemp raw < 1 ∧
    (0 ≤ raw → raw < 10 →
      FJavaSamsungGameSDK.GetHighPrecisionTemp raw = raw / 10) ∧
    (raw < 0 → FJavaSamsungGameSDK.GetHighPrecisionTemp raw = 0) ∧
    (10 ≤ raw → FJavaSamsungGameSDK.GetHighPrecisionTemp raw = 0) ∧
    (∀ fs : ℤ, SamsungProvider.GetThermalHeadroom raw fs =
      FJavaSamsungGameSDK.GetHighPrecisionTemp raw) := by
  unfold SamsungProvider.GetThermalHeadroom FJavaSamsungGameSDK.GetHighPrecisionTemp
  split_ifs with h
  · refine ⟨le_refl 0, one_pos, ?_, fun _ => rfl, fun _ => rfl, fun _ => rfl⟩
    intro h0 h10
    exfalso
    rcases h with h | h
    · linarith
    · linarith
  · push_neg at h
    obtain ⟨hlt, hge⟩ := h
    refine ⟨hge, hlt, fun _ _ => rfl, ?_, ?_, fun _ => rfl⟩
    · intro hneg
      exfalso
      linarith
    · intro h10
      exfalso
      linarith

theorem samsung_headroom_normalized_range_witness :
    FJavaSamsungGameSDK.GetHighPrecisionTemp 5 = 5 / 10 ∧
    FJavaSamsungGameSDK.GetHighPrecisionTemp (-3) = 0 ∧
    FJavaSamsungGameSDK.GetHighPrecisionTemp 12 = 0 :=
  ⟨(samsung_headroom_normalized_range 5).2.2.1 (by norm_num) (by norm_num),
   (samsung_headroom_normalized_range (-3)).2.2.2.1 (by norm_num),
   (samsung_headroom_normalized_range 12).2.2.2.2.1 (by norm_num)⟩

/-- C10: `saveQualityLevel(float)` is total over NaN, the infinities and all
finite values, always yielding a level in `{0,1,2,3}`; a NaN headroom fails
every `<` comparison and falls through to level 0 (highest fidelity), as
does positive infinity, while negative infinity yields level 3. -/
theorem saveQualityLevel_total :
    (∀ v : FloatV,
      saveQualityLevelFloat v = 0 ∨ saveQualityLevelFloat v = 1 ∨
      saveQualityLevelFloat v = 2 ∨ saveQualityLevelFloat v = 3) ∧
    saveQualityLevelFloat FloatV.nan = 0 ∧
    saveQualityLevelFloat FloatV.posInf = 0 ∧
    saveQualityLevelFloat FloatV.negInf = 3 := by
  refine ⟨fun v => ?_, ?_, ?_, ?_⟩
  · unfold saveQualityLevelFloat
    split_ifs <;> simp
  · norm_num [saveQualityLevelFloat, FloatV.lt]
  · norm_num [saveQualityLevelFloat, FloatV.lt]
  · norm_num [saveQualityLevelFloat, FloatV.lt]

end AdpfUnrealPlugin
